import Mathlib

/-!
Shallow embedding of an Express + MySQL API server: the authentication and
authorization subsystem (bcrypt credential handling, JWT issuance and
verification, bearer-token middleware), the ownership-scoped post CRUD
routes, and the idempotent storage bootstrap.

Modelling conventions:
* The bcrypt library is external to the repository; its hashes are modelled
  symbolically. A value of type PwStored is what the VARCHAR password column
  can hold: PwStored.hash cost salt pw stands for the bcrypt hash string of
  pw produced with the given cost and salt (a dollar-prefixed 60-character
  string, hence never textually equal to a submitted plaintext), while
  PwStored.raw s injects an arbitrary non-bcrypt-format string (a plaintext,
  a malformed value, or a foreign-format hash). The bcrypt compare function
  of the npm bcrypt library resolves to false on non-bcrypt-format input
  rather than raising; bcryptCompareFn models that fail-closed behaviour.
* The jsonwebtoken library is likewise modelled symbolically: a signed token
  carries its payload together with the MAC, where the MAC term records the
  key and the exact payload that was signed; verification recomputes the MAC
  over the presented payload and compares. Timestamps are seconds.
* The MySQL store is a DbState: existence flags for the database and the two
  tables plus the row lists. Parameterized queries become pure functions on
  the row lists. affectedRows for UPDATE follows the MySQL default
  (CLIENT_FOUND_ROWS unset): it counts rows actually changed, and for DELETE
  it counts rows deleted.
* Each Express handler becomes a pure function returning the new store plus
  a Resp, the status code and JSON body it sends.
-/

/-- Symbolic model of values storable in the users.password column. -/
inductive PwStored where
  | raw (s : String)
  | hash (cost salt : Nat) (pw : String)
deriving DecidableEq

/-- Model of bcrypt.hash(pw, cost) with the salt the library drew made explicit. -/
def bcryptHashFn (cost salt : Nat) (pw : String) : PwStored :=
  PwStored.hash cost salt pw

/-- Model of bcrypt.compare(pw, stored): re-hash pw under the cost and salt
recorded in stored and compare; a stored value that is not in bcrypt format
yields false (fail closed), never an error. -/
def bcryptCompareFn (pw : String) (stored : PwStored) : Bool :=
  match stored with
  | PwStored.raw _ => false
  | PwStored.hash _ _ p => p == pw

/-- Claims carried by a JWT issued by this server: account id and email from
the login route, plus the iat and exp timestamps added by jwt.sign. -/
structure JwtClaims where
  id : Nat
  email : String
  iat : Nat
  exp : Nat
deriving DecidableEq

/-- A signed token, symbolically: the payload together with the MAC, where the
MAC term records the signing key and the exact payload bytes that were
signed. Tampering with the payload leaves sigKey and sigPayload fixed. -/
structure Jwt where
  payload : JwtClaims
  sigKey : String
  sigPayload : JwtClaims
deriving DecidableEq

/-- Model of jwt.sign on the login route: payload id and email from the
matched account, iat set to the current time, exp = iat + 86400 seconds
(expiresIn "24h"). -/
def jwtSign (accountId : Nat) (email : String) (secret : String) (now : Nat) : Jwt :=
  { payload := { id := accountId, email := email, iat := now, exp := now + 86400 }
  , sigKey := secret
  , sigPayload := { id := accountId, email := email, iat := now, exp := now + 86400 } }

/-- Model of jwt.verify(token, secret) at time now: the MAC must have been
made with the same secret over exactly the presented payload, and the token
must not be expired (jsonwebtoken raises TokenExpiredError once
now >= exp). Any failure is none, modelling the thrown error. -/
def jwtVerify (t : Jwt) (secret : String) (now : Nat) : Option JwtClaims :=
  if t.sigKey = secret ∧ t.sigPayload = t.payload ∧ now < t.payload.exp then
    some t.payload
  else
    none

/-- Model of jwt.verify applied to a compact serialization: deser is the
JWT library decoder, returning none on malformed or truncated input, which
verification rejects. -/
def jwtVerifyStr (deser : String → Option Jwt) (secret : String) (now : Nat)
    (s : String) : Option JwtClaims :=
  match deser s with
  | none => none
  | some t => jwtVerify t secret now

/-- JS String.prototype.split with a one-character separator, on the
character list of the string: "a b".split(" ") = ["a", "b"], "".split(" ")
= [""], "a  b".split(" ") = ["a", "", "b"]. -/
def jsSplit (sep : Char) : List Char → List (List Char)
  | [] => [[]]
  | c :: cs =>
    match jsSplit sep cs with
    | [] => [[]]
    | g :: gs => if c = sep then [] :: g :: gs else (c :: g) :: gs

/-- Token extraction of the auth middleware:
req.headers.authorization?.split(" ")[1], with the JS falsiness check
if (!token): a missing header, a missing index-1 component, or an empty
index-1 component all yield none. -/
def extractToken (auth : Option String) : Option String :=
  match auth with
  | none => none
  | some h =>
    match (jsSplit ' ' h.data).get? 1 with
    | none => none
    | some [] => none
    | some cs => some (String.mk cs)

/-- JSON bodies sent by the routes of this server. -/
inductive Body where
  | jsonError (error : String)
  | jsonMessage (message : String)
  | jsonCreated (message : String) (newId : Nat)
  | jsonLogin (token : Jwt) (uid : Nat) (username : String) (email : String)
  | jsonProfile (row : Option (Nat × String × String))
  | jsonPostRow (id : Nat) (title : String) (content : String) (userId : Nat)
deriving DecidableEq

/-- A response: HTTP status code plus JSON body. -/
structure Resp where
  status : Nat
  body : Body
deriving DecidableEq

/-- The authentication middleware: extract the credential from the
Authorization header; absent credential responds 401 No token provided;
then delegate to the verification function (jwt.verify under the server
secret), any thrown verification error responds 401 Invalid token; on
success the decoded claims are attached as req.user for the handler. -/
def authMiddleware (auth : Option String) (verifyFn : String → Option JwtClaims) :
    Except Resp JwtClaims :=
  match extractToken auth with
  | none => Except.error ⟨401, Body.jsonError "No token provided"⟩
  | some tok =>
    match verifyFn tok with
    | none => Except.error ⟨401, Body.jsonError "Invalid token"⟩
    | some c => Except.ok c

/-- A row of the users table. -/
structure UserRow where
  id : Nat
  username : String
  email : String
  password : PwStored
deriving DecidableEq

/-- A row of the posts table. -/
structure PostRow where
  id : Nat
  title : String
  content : String
  user_id : Nat
deriving DecidableEq

/-- POST /api/users/register: hash the password with bcrypt cost 10 and
insert the new user; a UNIQUE constraint violation on username or email
makes the INSERT throw, surfaced as a 500 with the driver message
(abbreviated here). nextId models the AUTO_INCREMENT counter and salt the
salt drawn by bcrypt. -/
def registerHandler (users : List UserRow) (nextId salt : Nat)
    (username email password : String) : List UserRow × Resp :=
  if users.any (fun u => u.username == username || u.email == email) then
    (users, ⟨500, Body.jsonError "Duplicate entry"⟩)
  else
    let hashed := bcryptHashFn 10 salt password
    (users ++ [⟨nextId, username, email, hashed⟩],
     ⟨201, Body.jsonCreated "User created" nextId⟩)

/-- POST /api/users/login: SELECT * FROM users WHERE email = ?; empty result
responds 401 Invalid credentials; otherwise bcrypt.compare the submitted
password against users[0].password, a non-match responds the same 401
Invalid credentials; on success sign a 24h token over the account id and
email and return it with the public profile. -/
def loginHandler (users : List UserRow) (email password secret : String)
    (now : Nat) : Resp :=
  match (users.filter (fun u => u.email == email)).head? with
  | none => ⟨401, Body.jsonError "Invalid credentials"⟩
  | some user =>
    if bcryptCompareFn password user.password then
      ⟨200, Body.jsonLogin (jwtSign user.id user.email secret now)
              user.id user.username user.email⟩
    else
      ⟨401, Body.jsonError "Invalid credentials"⟩

/-- GET /api/users/profile handler body: SELECT id, username, email FROM
users WHERE id = ?; then res.json(users[0]) with no emptiness check, so an
empty result serializes the undefined row as an empty 200 body. -/
def profileHandler (users : List UserRow) (uid : Nat) : Resp :=
  ⟨200, Body.jsonProfile
    (((users.filter (fun u => u.id == uid)).map
        (fun u => (u.id, u.username, u.email))).head?)⟩

/-- GET /api/users/profile with the auth middleware in front. -/
def profileRoute (users : List UserRow) (auth : Option String)
    (verifyFn : String → Option JwtClaims) : Resp :=
  match authMiddleware auth verifyFn with
  | Except.error r => r
  | Except.ok c => profileHandler users c.id

/-- affectedRows of UPDATE posts SET title = ?, content = ? WHERE id = ?
AND user_id = ?: under the MySQL default (CLIENT_FOUND_ROWS unset) it
counts the rows matched by the WHERE clause whose values actually change. -/
def updateAffected (posts : List PostRow) (pid uid : Nat)
    (title content : String) : Nat :=
  (posts.filter (fun p =>
    p.id == pid && p.user_id == uid &&
    !(p.title == title && p.content == content))).length

/-- PUT /api/posts/:id handler body: run the single conditional UPDATE
matching both the post id and the owner id, then respond 404 Post not found
or unauthorized when affectedRows is zero, 200 Post updated otherwise. -/
def putPostHandler (posts : List PostRow) (pid uid : Nat)
    (title content : String) : List PostRow × Resp :=
  let posts2 := posts.map (fun p =>
    if p.id == pid && p.user_id == uid then
      { p with title := title, content := content }
    else p)
  if updateAffected posts pid uid title content == 0 then
    (posts2, ⟨404, Body.jsonError "Post not found or unauthorized"⟩)
  else
    (posts2, ⟨200, Body.jsonMessage "Post updated"⟩)

/-- DELETE /api/posts/:id handler body: run the single conditional DELETE
matching both the post id and the owner id, then respond 404 Post not found
or unauthorized when affectedRows is zero, 200 Post deleted otherwise. -/
def deletePostHandler (posts : List PostRow) (pid uid : Nat) :
    List PostRow × Resp :=
  let affected := (posts.filter (fun p => p.id == pid && p.user_id == uid)).length
  let posts2 := posts.filter (fun p => !(p.id == pid && p.user_id == uid))
  if affected == 0 then
    (posts2, ⟨404, Body.jsonError "Post not found or unauthorized"⟩)
  else
    (posts2, ⟨200, Body.jsonMessage "Post deleted"⟩)

/-- PUT /api/posts/:id with the auth middleware in front: the owner id used
by the UPDATE is the id of the claims the middleware attached. -/
def putPostRoute (posts : List PostRow) (auth : Option String)
    (verifyFn : String → Option JwtClaims) (pid : Nat)
    (title content : String) : List PostRow × Resp :=
  match authMiddleware auth verifyFn with
  | Except.error r => (posts, r)
  | Except.ok c => putPostHandler posts pid c.id title content

/-- DELETE /api/posts/:id with the auth middleware in front. -/
def deletePostRoute (posts : List PostRow) (auth : Option String)
    (verifyFn : String → Option JwtClaims) (pid : Nat) : List PostRow × Resp :=
  match authMiddleware auth verifyFn with
  | Except.error r => (posts, r)
  | Except.ok c => deletePostHandler posts pid c.id

/-- A seed account from mockData.js. -/
structure SeedUser where
  username : String
  email : String
  password : String
deriving DecidableEq

/-- A seed post from mockData.js. -/
structure SeedPost where
  title : String
  content : String
  user_id : Nat
deriving DecidableEq

/-- The mockUsers array of mockData.js. -/
def mockUsers : List SeedUser :=
  [ ⟨"johndoe", "john@example.com", "password123"⟩
  , ⟨"janedoe", "jane@example.com", "password456"⟩ ]

/-- The mockPosts array of mockData.js. -/
def mockPosts : List SeedPost :=
  [ ⟨"Getting Started with Node.js",
     "Node.js is a powerful JavaScript runtime built on Chrome\x27s V8 engine. It allows developers to build scalable network applications.",
     1⟩
  , ⟨"Understanding Express Framework",
     "Express is a minimal and flexible Node.js web application framework that provides a robust set of features for web and mobile applications.",
     1⟩
  , ⟨"MySQL Best Practices",
     "When working with MySQL, it\x27s important to follow best practices such as using prepared statements, indexing properly, and normalizing your data.",
     2⟩
  , ⟨"REST API Design Principles",
     "RESTful APIs should be stateless, cacheable, and follow standard HTTP methods. Proper resource naming and status codes are essential.",
     2⟩
  , ⟨"JWT Authentication Explained",
     "JSON Web Tokens provide a secure way to transmit information between parties. They consist of three parts: header, payload, and signature.",
     1⟩ ]

/-- State of the MySQL store seen by the bootstrap initializer: existence of
the logical database and the two tables, plus their rows. -/
structure DbState where
  dbExists : Bool
  usersTable : Bool
  postsTable : Bool
  users : List UserRow
  posts : List PostRow
deriving DecidableEq

/-- The user rows inserted by the seeding loop of createTables: each mock
user in order, AUTO_INCREMENT ids starting at 1 on the empty table, the
password hashed through bcrypt with cost 10 (salts lists the salts drawn). -/
def seededUsers (salts : List Nat) : List UserRow :=
  mockUsers.enum.map (fun iu =>
    ⟨iu.1 + 1, iu.2.username, iu.2.email,
     bcryptHashFn 10 (salts.getD iu.1 0) iu.2.password⟩)

/-- The post rows the seeding loop inserts on an empty posts table: each
mock post in order with AUTO_INCREMENT ids starting at 1. -/
def seededPosts : List PostRow :=
  mockPosts.enum.map (fun ip => ⟨ip.1 + 1, ip.2.title, ip.2.content, ip.2.user_id⟩)

/-- The per-post INSERT loop of the post seeding step: inserts posts one at
a time; an insert whose user_id resolves to no existing user violates the
foreign key and makes the query throw, aborting the loop with the rows
inserted so far kept (each INSERT is its own statement). -/
def insertSeedPosts (ps : List SeedPost) (st : DbState) : DbState × Option String :=
  match ps with
  | [] => (st, none)
  | p :: rest =>
    if st.users.any (fun u => u.id == p.user_id) then
      insertSeedPosts rest
        { st with posts := st.posts ++ [⟨st.posts.length + 1, p.title, p.content, p.user_id⟩] }
    else
      (st, some "foreign key constraint fails")

/-- Step 1 of createTables: CREATE DATABASE IF NOT EXISTS. -/
def stepCreateDatabase (st : DbState) : DbState × Option String :=
  ({ st with dbExists := true }, none)

/-- Step 2 of createTables: CREATE TABLE IF NOT EXISTS users; a freshly
created table is empty. -/
def stepCreateUsersTable (st : DbState) : DbState × Option String :=
  (if st.usersTable then st else { st with usersTable := true, users := [] }, none)

/-- Step 3 of createTables: CREATE TABLE IF NOT EXISTS posts. -/
def stepCreatePostsTable (st : DbState) : DbState × Option String :=
  (if st.postsTable then st else { st with postsTable := true, posts := [] }, none)

/-- Step 4 of createTables: if SELECT COUNT(*) FROM users is zero, insert
every mock user with its password hashed through bcrypt cost 10. -/
def stepSeedUsers (salts : List Nat) (st : DbState) : DbState × Option String :=
  (if st.users.isEmpty then { st with users := seededUsers salts } else st, none)

/-- Step 5 of createTables: if SELECT COUNT(*) FROM posts is zero, insert
every mock post. -/
def stepSeedPosts (st : DbState) : DbState × Option String :=
  if st.posts.isEmpty then insertSeedPosts mockPosts st else (st, none)

/-- The five steps of the createTables try block, in source order. -/
def bootstrapSteps (salts : List Nat) : List (DbState → DbState × Option String) :=
  [stepCreateDatabase, stepCreateUsersTable, stepCreatePostsTable,
   stepSeedUsers salts, stepSeedPosts]

/-- Sequential execution of the try block: steps run in order and the first
error stops the run, leaving later steps unexecuted. failAt injects an
external query failure right before the step with that index, modelling a
storage-side fault. Returns the store state and the error, if any. -/
def runSteps (failAt : Option Nat) (i : Nat)
    (steps : List (DbState → DbState × Option String)) (st : DbState) :
    DbState × Option String :=
  match steps with
  | [] => (st, none)
  | f :: rest =>
    if failAt = some i then (st, some "injected failure")
    else
      match f st with
      | (st2, none) => runSteps failAt (i + 1) rest st2
      | (st2, some e) => (st2, some e)

/-- createTables without injected faults: the store state after the try
block and the error it threw, if any. -/
def createTables (salts : List Nat) (st : DbState) : DbState × Option String :=
  runSteps none 0 (bootstrapSteps salts) st

/-- The whole createTables call including its catch and finally clauses:
the caller-visible result (the thrown error propagates after being logged),
the underlying store state (steps already executed stay committed), and
whether connection.end() ran (the finally clause runs on every path). -/
def createTablesRun (failAt : Option Nat) (salts : List Nat) (st : DbState) :
    Except String DbState × DbState × Bool :=
  match runSteps failAt 0 (bootstrapSteps salts) st with
  | (st2, some e) => (Except.error e, st2, true)
  | (st2, none) => (Except.ok st2, st2, true)

/-! Helper lemmas shared by the claim theorems. -/

theorem list_map_id_of_mem {α : Type} (f : α → α) :
    ∀ (l : List α), (∀ a ∈ l, f a = a) → l.map f = l := by
  intro l
  induction l with
  | nil => intro _; rfl
  | cons a t ih =>
    intro h
    simp only [List.map_cons, List.cons.injEq]
    exact ⟨h a (by simp), ih (fun b hb => h b (by simp [hb]))⟩

theorem jwtVerify_expired_of_le (a : Nat) (e s : String) (t n : Nat)
    (h : t + 86400 ≤ n) : jwtVerify (jwtSign a e s t) s n = none := by
  simp only [jwtVerify, jwtSign]
  rw [if_neg]
  rintro ⟨-, -, hlt⟩
  omega

theorem jwtVerify_tampered (a : Nat) (e s : String) (t : Nat) (p2 : JwtClaims)
    (hp : p2 ≠ (jwtSign a e s t).payload) (n : Nat) :
    jwtVerify ⟨p2, (jwtSign a e s t).sigKey, (jwtSign a e s t).sigPayload⟩ s n = none := by
  simp only [jwtVerify]
  rw [if_neg]
  rintro ⟨-, hsig, -⟩
  exact hp (by rw [← hsig]; rfl)

/-- C2: for every request to a protected route, an absent Authorization
header or one from which no credential part can be extracted (no second
space-separated component, or an empty one) is rejected 401 with body error
No token provided; an extracted credential whose verification fails, for
whatever reason the verifier had, is rejected 401 with body error Invalid
token, the sub-reason not being distinguished to the client. -/
theorem auth_gate_rejections (auth : Option String)
    (verifyFn : String → Option JwtClaims) :
    (extractToken auth = none →
      authMiddleware auth verifyFn = Except.error ⟨401, Body.jsonError "No token provided"⟩) ∧
    (auth = none → extractToken auth = none) ∧
    (∀ h : String, auth = some h → (jsSplit ' ' h.data).get? 1 = none →
      extractToken auth = none) ∧
    (∀ t, extractToken auth = some t → verifyFn t = none →
      authMiddleware auth verifyFn = Except.error ⟨401, Body.jsonError "Invalid token"⟩) := by
  refine ⟨?_, ?_, ?_, ?_⟩
  · intro h
    simp [authMiddleware, h]
  · intro h
    rw [h]
    rfl
  · intro h hh hsplit
    rw [hh]
    rw [List.get?_eq_getElem?] at hsplit
    simp [extractToken, hsplit]
  · intro t ht hv
    simp [authMiddleware, ht, hv]

/-- Witness for C2 at concrete inputs: a missing header, a header with no
second component, a header with an empty second component, and a failing
verifier on a well-shaped header. -/
theorem auth_gate_rejections_witness :
    authMiddleware none (fun _ => none) =
      Except.error ⟨401, Body.jsonError "No token provided"⟩ ∧
    authMiddleware (some "Bearer") (fun _ => none) =
      Except.error ⟨401, Body.jsonError "No token provided"⟩ ∧
    authMiddleware (some "Bearer ") (fun _ => none) =
      Except.error ⟨401, Body.jsonError "No token provided"⟩ ∧
    authMiddleware (some "Bearer x") (fun _ => none) =
      Except.error ⟨401, Body.jsonError "Invalid token"⟩ := by
  refine ⟨?_, ?_, ?_, ?_⟩
  · exact (auth_gate_rejections none (fun _ => none)).1 rfl
  · exact (auth_gate_rejections (some "Bearer") (fun _ => none)).1 rfl
  · exact (auth_gate_rejections (some "Bearer ") (fun _ => none)).1 rfl
  · exact (auth_gate_rejections (some "Bearer x") (fun _ => none)).2.2.2 "x" rfl rfl

/-- C3: verification of an issued token fails once the expiry instant has
passed (jsonwebtoken raises TokenExpiredError from now = exp onward), and
verification of any token obtained from an issued token by altering its
claims while keeping the original signature fails; in both cases the auth
middleware in front of a protected route responds 401 Invalid token instead
of attaching an identity. A claim-byte mutation that leaves the token
parseable changes the decoded payload, the sigPayload tampering case; one
that breaks parsing is the deser-none case, rejected through jwtVerifyStr. -/
theorem token_expiry_and_tamper (accountId : Nat) (email secret : String)
    (tIssue now : Nat) :
    (tIssue + 86400 ≤ now →
      jwtVerify (jwtSign accountId email secret tIssue) secret now = none) ∧
    (∀ p2 : JwtClaims, p2 ≠ (jwtSign accountId email secret tIssue).payload →
      ∀ n : Nat,
        jwtVerify ⟨p2, (jwtSign accountId email secret tIssue).sigKey,
                   (jwtSign accountId email secret tIssue).sigPayload⟩ secret n = none) ∧
    (∀ (auth : Option String) (s : String) (deser : String → Option Jwt)
        (p2 : JwtClaims),
      extractToken auth = some s →
      ((deser s = some (jwtSign accountId email secret tIssue) ∧ tIssue + 86400 ≤ now) ∨
        (p2 ≠ (jwtSign accountId email secret tIssue).payload ∧
          deser s = some ⟨p2, (jwtSign accountId email secret tIssue).sigKey,
                           (jwtSign accountId email secret tIssue).sigPayload⟩) ∨
        deser s = none) →
      authMiddleware auth (jwtVerifyStr deser secret now) =
        Except.error ⟨401, Body.jsonError "Invalid token"⟩) := by
  refine ⟨jwtVerify_expired_of_le accountId email secret tIssue now,
          jwtVerify_tampered accountId email secret tIssue, ?_⟩
  intro auth s deser p2 hext hcase
  have hv : jwtVerifyStr deser secret now s = none := by
    rcases hcase with ⟨hdes, hle⟩ | ⟨hp, hdes⟩ | hdes
    · simp [jwtVerifyStr, hdes,
        jwtVerify_expired_of_le accountId email secret tIssue now hle]
    · simp [jwtVerifyStr, hdes,
        jwtVerify_tampered accountId email secret tIssue p2 hp now]
    · simp [jwtVerifyStr, hdes]
  simp [authMiddleware, hext, hv]

/-- Witness for C3: a token issued at time 0 is rejected at its expiry
instant 86400; the same token with its account id claim altered from 1 to 2
is rejected at any time; and a protected route carrying either one in its
bearer header responds 401 Invalid token. -/
theorem token_expiry_and_tamper_witness :
    jwtVerify (jwtSign 1 "john@example.com" "secret" 0) "secret" 86400 = none ∧
    jwtVerify ⟨⟨2, "john@example.com", 0, 86400⟩, "secret", ⟨1, "john@example.com", 0, 86400⟩⟩
      "secret" 0 = none ∧
    authMiddleware (some "Bearer tok")
        (jwtVerifyStr
          (fun _ => some ⟨⟨2, "john@example.com", 0, 86400⟩, "secret",
                          ⟨1, "john@example.com", 0, 86400⟩⟩)
          "secret" 86400) =
      Except.error ⟨401, Body.jsonError "Invalid token"⟩ := by
  have h := token_expiry_and_tamper 1 "john@example.com" "secret" 0 86400
  refine ⟨h.1 (by omega), h.2.1 ⟨2, "john@example.com", 0, 86400⟩ (by decide) 0, ?_⟩
  exact h.2.2 (some "Bearer tok") "tok"
    (fun _ => some ⟨⟨2, "john@example.com", 0, 86400⟩, "secret",
                    ⟨1, "john@example.com", 0, 86400⟩⟩)
    ⟨2, "john@example.com", 0, 86400⟩ rfl
    (Or.inr (Or.inl ⟨by decide, rfl⟩))

/-- C4: a login whose email matches a stored account and whose password
verifies against the stored hash responds 200 with a token signed over
exactly that account id and email, whose iat is the issue time and whose
absolute exp is the issue time plus 24 hours (86400 seconds), and the token
round-trips through verification to those claims. -/
theorem login_success_token_claims (users : List UserRow)
    (email pw secret : String) (now : Nat) (u : UserRow)
    (hfind : (users.filter (fun x => x.email == email)).head? = some u)
    (hpw : bcryptCompareFn pw u.password = true) :
    loginHandler users email pw secret now =
      ⟨200, Body.jsonLogin (jwtSign u.id u.email secret now)
              u.id u.username u.email⟩ ∧
    (jwtSign u.id u.email secret now).payload =
      { id := u.id, email := u.email, iat := now, exp := now + 86400 } ∧
    jwtVerify (jwtSign u.id u.email secret now) secret now =
      some { id := u.id, email := u.email, iat := now, exp := now + 86400 } := by
  refine ⟨?_, rfl, ?_⟩
  · simp [loginHandler, hfind, hpw]
  · simp only [jwtVerify, jwtSign]
    rw [if_pos ⟨trivial, trivial, by omega⟩]

/-- Witness for C4: the seeded account john logs in with its correct
password at time 1000 and receives the expected signed token. -/
theorem login_success_token_claims_witness :
    loginHandler
        [⟨1, "johndoe", "john@example.com", PwStored.hash 10 7 "password123"⟩]
        "john@example.com" "password123" "secret" 1000 =
      ⟨200, Body.jsonLogin (jwtSign 1 "john@example.com" "secret" 1000)
              1 "johndoe" "john@example.com"⟩ ∧
    jwtVerify (jwtSign 1 "john@example.com" "secret" 1000) "secret" 1000 =
      some { id := 1, email := "john@example.com", iat := 1000, exp := 1000 + 86400 } := by
  have h := login_success_token_claims
    [⟨1, "johndoe", "john@example.com", PwStored.hash 10 7 "password123"⟩]
    "john@example.com" "password123" "secret" 1000
    ⟨1, "johndoe", "john@example.com", PwStored.hash 10 7 "password123"⟩
    rfl rfl
  exact ⟨h.1, h.2.2⟩

/-- C5: a login whose email matches no stored account, and a login whose
password does not verify against the matched stored hash, both respond with
the same 401 Invalid credentials error body, carrying no token, so the two
failure causes are indistinguishable in the response. -/
theorem login_failure_uniform_401 (users : List UserRow)
    (email pw secret : String) (now : Nat) :
    ((users.filter (fun x => x.email == email)).head? = none →
      loginHandler users email pw secret now =
        ⟨401, Body.jsonError "Invalid credentials"⟩) ∧
    (∀ u, (users.filter (fun x => x.email == email)).head? = some u →
      bcryptCompareFn pw u.password = false →
      loginHandler users email pw secret now =
        ⟨401, Body.jsonError "Invalid credentials"⟩) := by
  constructor
  · intro h
    simp [loginHandler, h]
  · intro u h hpw
    simp [loginHandler, h, hpw]

/-- Witness for C5: unknown email and wrong password against a one-account
store both yield the identical 401 response. -/
theorem login_failure_uniform_401_witness :
    loginHandler [⟨1, "johndoe", "john@example.com", PwStored.hash 10 7 "password123"⟩]
        "nobody@example.com" "password123" "secret" 0 =
      ⟨401, Body.jsonError "Invalid credentials"⟩ ∧
    loginHandler [⟨1, "johndoe", "john@example.com", PwStored.hash 10 7 "password123"⟩]
        "john@example.com" "wrongpass" "secret" 0 =
      ⟨401, Body.jsonError "Invalid credentials"⟩ := by
  constructor
  · exact (login_failure_uniform_401
      [⟨1, "johndoe", "john@example.com", PwStored.hash 10 7 "password123"⟩]
      "nobody@example.com" "password123" "secret" 0).1 rfl
  · exact (login_failure_uniform_401
      [⟨1, "johndoe", "john@example.com", PwStored.hash 10 7 "password123"⟩]
      "john@example.com" "wrongpass" "secret" 0).2
      ⟨1, "johndoe", "john@example.com", PwStored.hash 10 7 "password123"⟩ rfl rfl

/-- C9: when the stored password value of the matched account is malformed
or in a foreign hash format (any non-bcrypt-format column value, modelled
by PwStored.raw), bcrypt.compare resolves to false instead of raising, so
credential verification fails closed into the same 401 Invalid credentials
outcome and never reaches an authenticated state. -/
theorem login_malformed_hash_fails_closed (users : List UserRow)
    (email pw secret : String) (now : Nat) (u : UserRow) (s : String)
    (hfind : (users.filter (fun x => x.email == email)).head? = some u)
    (hraw : u.password = PwStored.raw s) :
    bcryptCompareFn pw u.password = false ∧
    loginHandler users email pw secret now =
      ⟨401, Body.jsonError "Invalid credentials"⟩ := by
  have hc : bcryptCompareFn pw u.password = false := by
    rw [hraw]
    rfl
  exact ⟨hc, by simp [loginHandler, hfind, hc]⟩

/-- Witness for C9: an account whose stored password column holds a
foreign-format hash string is rejected 401 even when the submitted password
is the one that string encodes. -/
theorem login_malformed_hash_fails_closed_witness :
    bcryptCompareFn "password123"
      (PwStored.raw "$argon2id$v=19$m=65536,t=3,p=4$abc") = false ∧
    loginHandler
        [⟨1, "johndoe", "john@example.com",
          PwStored.raw "$argon2id$v=19$m=65536,t=3,p=4$abc"⟩]
        "john@example.com" "password123" "secret" 0 =
      ⟨401, Body.jsonError "Invalid credentials"⟩ := by
  exact login_malformed_hash_fails_closed
    [⟨1, "johndoe", "john@example.com",
      PwStored.raw "$argon2id$v=19$m=65536,t=3,p=4$abc"⟩]
    "john@example.com" "password123" "secret" 0
    ⟨1, "johndoe", "john@example.com",
      PwStored.raw "$argon2id$v=19$m=65536,t=3,p=4$abc"⟩
    "$argon2id$v=19$m=65536,t=3,p=4$abc" rfl rfl

/-- C10: a GET profile request that passes the auth middleware with claims
whose account id matches no stored user responds 200 with an undefined row
serialized as an empty body, not 404 or 401: the handler reads users[0]
without checking that the query returned a row. -/
theorem profile_missing_account_200_empty (users : List UserRow)
    (auth : Option String) (verifyFn : String → Option JwtClaims)
    (c : JwtClaims)
    (hauth : authMiddleware auth verifyFn = Except.ok c)
    (hmiss : ∀ u ∈ users, u.id ≠ c.id) :
    profileRoute users auth verifyFn = ⟨200, Body.jsonProfile none⟩ := by
  have hfil : users.filter (fun u => u.id == c.id) = [] := by
    refine List.filter_eq_nil_iff.mpr ?_
    intro u hu
    simpa using hmiss u hu
  simp [profileRoute, hauth, profileHandler, hfil]

/-- Witness for C10: a valid unexpired token for the deleted account id 2
against a store holding only account id 1 yields a 200 with empty body. -/
theorem profile_missing_account_200_empty_witness :
    profileRoute [⟨1, "johndoe", "john@example.com", PwStored.hash 10 7 "password123"⟩]
        (some "Bearer tok") (fun _ => some ⟨2, "jane@example.com", 0, 86400⟩) =
      ⟨200, Body.jsonProfile none⟩ := by
  exact profile_missing_account_200_empty
    [⟨1, "johndoe", "john@example.com", PwStored.hash 10 7 "password123"⟩]
    (some "Bearer tok") (fun _ => some ⟨2, "jane@example.com", 0, 86400⟩)
    ⟨2, "jane@example.com", 0, 86400⟩ rfl (by decide)

theorem putPostHandler_fst (posts : List PostRow) (pid uid : Nat)
    (title content : String) :
    (putPostHandler posts pid uid title content).1 =
      posts.map (fun p =>
        if p.id == pid && p.user_id == uid then
          { p with title := title, content := content }
        else p) := by
  unfold putPostHandler
  split <;> rfl

theorem deletePostHandler_fst (posts : List PostRow) (pid uid : Nat) :
    (deletePostHandler posts pid uid).1 =
      posts.filter (fun p => !(p.id == pid && p.user_id == uid)) := by
  cases hz : ((posts.filter (fun p => p.id == pid && p.user_id == uid)).length == 0) with
  | true => simp [deletePostHandler, hz]
  | false => simp [deletePostHandler, hz]

/-- C1: for an authenticated PUT or DELETE on /posts/:id, the mutation is
the single conditional statement whose WHERE clause matches both the post
id and the authenticated account id as owner; whenever no stored post
matches that conjunction — the post id does not exist, or the post belongs
to a different account — zero rows are affected and both routes respond
with the identical 404 body error Post not found or unauthorized, leaving
the store unchanged, with nothing distinguishing the two causes. -/
theorem update_delete_unauthorized_404 (posts : List PostRow)
    (auth : Option String) (verifyFn : String → Option JwtClaims)
    (c : JwtClaims) (pid : Nat) (title content : String)
    (hauth : authMiddleware auth verifyFn = Except.ok c)
    (hmiss : ∀ p ∈ posts, ¬(p.id = pid ∧ p.user_id = c.id)) :
    (putPostRoute posts auth verifyFn pid title content).2 =
      ⟨404, Body.jsonError "Post not found or unauthorized"⟩ ∧
    (putPostRoute posts auth verifyFn pid title content).1 = posts ∧
    (deletePostRoute posts auth verifyFn pid).2 =
      ⟨404, Body.jsonError "Post not found or unauthorized"⟩ ∧
    (deletePostRoute posts auth verifyFn pid).1 = posts := by
  have hmatch : ∀ p ∈ posts, (p.id == pid && p.user_id == c.id) = false := by
    intro p hp
    have := hmiss p hp
    simp only [Bool.and_eq_false_iff, beq_eq_false_iff_ne, ne_eq]
    by_cases h1 : p.id = pid
    · exact Or.inr (fun h2 => this ⟨h1, h2⟩)
    · exact Or.inl h1
  have haff : updateAffected posts pid c.id title content = 0 := by
    unfold updateAffected
    rw [List.length_eq_zero]
    refine List.filter_eq_nil_iff.mpr ?_
    intro p hp hcontra
    simp only [Bool.and_eq_true, beq_iff_eq] at hcontra
    exact hmiss p hp ⟨by tauto, by tauto⟩
  have hdel : (posts.filter (fun p => p.id == pid && p.user_id == c.id)).length = 0 := by
    have : posts.filter (fun p => p.id == pid && p.user_id == c.id) = [] := by
      refine List.filter_eq_nil_iff.mpr ?_
      intro p hp
      simp [hmatch p hp]
    simp [this]
  have hmap : (posts.map (fun p =>
      if p.id == pid && p.user_id == c.id then
        { p with title := title, content := content }
      else p)) = posts := by
    refine list_map_id_of_mem _ posts ?_
    intro p hp
    simp [hmatch p hp]
  have hkeep : posts.filter (fun p => !(p.id == pid && p.user_id == c.id)) = posts := by
    refine List.filter_eq_self.mpr ?_
    intro p hp
    simp [hmatch p hp]
  have hput : putPostRoute posts auth verifyFn pid title content =
      putPostHandler posts pid c.id title content := by
    simp [putPostRoute, hauth]
  have hdelr : deletePostRoute posts auth verifyFn pid =
      deletePostHandler posts pid c.id := by
    simp [deletePostRoute, hauth]
  refine ⟨?_, ?_, ?_, ?_⟩
  · rw [hput]
    simp [putPostHandler, haff]
  · rw [hput, putPostHandler_fst]
    exact hmap
  · rw [hdelr]
    simp [deletePostHandler, hdel]
  · rw [hdelr, deletePostHandler_fst]
    exact hkeep

/-- Witness for C1: the store holds post id 1 owned by account 2; an
authenticated caller with account id 5 gets the 404 body from both PUT on
the existing-but-foreign post id 1 and DELETE on the absent post id 9. -/
theorem update_delete_unauthorized_404_witness :
    (putPostRoute [⟨1, "t", "c", 2⟩] (some "Bearer tok")
        (fun _ => some ⟨5, "eve@example.com", 0, 86400⟩) 1 "new" "body").2 =
      ⟨404, Body.jsonError "Post not found or unauthorized"⟩ ∧
    (deletePostRoute [⟨1, "t", "c", 2⟩] (some "Bearer tok")
        (fun _ => some ⟨5, "eve@example.com", 0, 86400⟩) 9).2 =
      ⟨404, Body.jsonError "Post not found or unauthorized"⟩ := by
  constructor
  · exact (update_delete_unauthorized_404 [⟨1, "t", "c", 2⟩] (some "Bearer tok")
      (fun _ => some ⟨5, "eve@example.com", 0, 86400⟩)
      ⟨5, "eve@example.com", 0, 86400⟩ 1 "new" "body" rfl (by decide)).1
  · exact (update_delete_unauthorized_404 [⟨1, "t", "c", 2⟩] (some "Bearer tok")
      (fun _ => some ⟨5, "eve@example.com", 0, 86400⟩)
      ⟨5, "eve@example.com", 0, 86400⟩ 9 "new" "body" rfl (by decide)).2.2.1

/-- C6: a successful registration stores the bcrypt cost-10 hash of the
submitted plaintext in the password column, a value that as a column string
is never the plaintext itself, and verifying the original plaintext against
the stored value returns true; every account the bootstrap seeds satisfies
the same property for its mock password. -/
theorem register_and_seed_store_hash (users : List UserRow) (nextId salt : Nat)
    (username email pw : String) (salts : List Nat)
    (hfree : users.any (fun u => u.username == username || u.email == email) = false) :
    registerHandler users nextId salt username email pw =
      (users ++ [⟨nextId, username, email, PwStored.hash 10 salt pw⟩],
       ⟨201, Body.jsonCreated "User created" nextId⟩) ∧
    PwStored.hash 10 salt pw ≠ PwStored.raw pw ∧
    bcryptCompareFn pw (PwStored.hash 10 salt pw) = true ∧
    (∀ i u, (seededUsers salts).get? i = some u →
      ∃ mu, mockUsers.get? i = some mu ∧
        u.password = PwStored.hash 10 (salts.getD i 0) mu.password ∧
        u.password ≠ PwStored.raw mu.password ∧
        bcryptCompareFn mu.password u.password = true) := by
  refine ⟨?_, by simp, by simp [bcryptCompareFn], ?_⟩
  · simp [registerHandler, hfree, bcryptHashFn]
  · intro i u hget
    match i with
    | 0 =>
      simp only [seededUsers, mockUsers] at hget
      simp only [List.enum, List.get?] at hget
      refine ⟨⟨"johndoe", "john@example.com", "password123"⟩, rfl, ?_⟩
      cases hget
      exact ⟨rfl, by simp [bcryptHashFn], by simp [bcryptCompareFn, bcryptHashFn]⟩
    | 1 =>
      simp only [seededUsers, mockUsers] at hget
      simp only [List.enum, List.get?] at hget
      refine ⟨⟨"janedoe", "jane@example.com", "password456"⟩, rfl, ?_⟩
      cases hget
      exact ⟨rfl, by simp [bcryptHashFn], by simp [bcryptCompareFn, bcryptHashFn]⟩
    | (n + 2) =>
      exfalso
      have hlen : (seededUsers salts).length = 2 := by simp [seededUsers, mockUsers]
      have hnone : (seededUsers salts).get? (n + 2) = none :=
        List.get?_eq_none.mpr (by rw [hlen]; omega)
      rw [hnone] at hget
      cases hget

/-- Witness for C6: registering alice against an empty store stores the
cost-10 hash which verifies, and the first seeded account stores the hash
of its mock password. -/
theorem register_and_seed_store_hash_witness :
    registerHandler [] 1 9 "alice" "alice@example.com" "p1" =
      ([⟨1, "alice", "alice@example.com", PwStored.hash 10 9 "p1"⟩],
       ⟨201, Body.jsonCreated "User created" 1⟩) ∧
    bcryptCompareFn "p1" (PwStored.hash 10 9 "p1") = true ∧
    (∃ mu, mockUsers.get? 0 = some mu ∧
      (⟨1, "johndoe", "john@example.com", PwStored.hash 10 4 "password123"⟩ : UserRow).password =
        PwStored.hash 10 ([4, 5].getD 0 0) mu.password ∧
      (⟨1, "johndoe", "john@example.com", PwStored.hash 10 4 "password123"⟩ : UserRow).password ≠
        PwStored.raw mu.password ∧
      bcryptCompareFn mu.password
        (⟨1, "johndoe", "john@example.com", PwStored.hash 10 4 "password123"⟩ : UserRow).password = true) := by
  have h := register_and_seed_store_hash [] 1 9 "alice" "alice@example.com" "p1" [4, 5] rfl
  exact ⟨h.1, h.2.2.1,
    h.2.2.2 0 ⟨1, "johndoe", "john@example.com", PwStored.hash 10 4 "password123"⟩ rfl⟩

theorem insertSeedPosts_ok (ps : List SeedPost) :
    ∀ (st st2 : DbState), insertSeedPosts ps st = (st2, none) →
      st2.dbExists = st.dbExists ∧ st2.usersTable = st.usersTable ∧
      st2.postsTable = st.postsTable ∧ st2.users = st.users ∧
      st2.posts.length = st.posts.length + ps.length := by
  induction ps with
  | nil =>
    intro st st2 h
    simp only [insertSeedPosts] at h
    injection h with h1 h2
    subst h1
    simp
  | cons p rest ih =>
    intro st st2 h
    simp only [insertSeedPosts] at h
    by_cases hc : st.users.any (fun u => u.id == p.user_id) = true
    · rw [if_pos hc] at h
      have hrec := ih _ _ h
      refine ⟨hrec.1, hrec.2.1, hrec.2.2.1, hrec.2.2.2.1, ?_⟩
      have hl := hrec.2.2.2.2
      simp only [List.length_append, List.length_cons, List.length_nil] at hl ⊢
      omega
    · rw [if_neg hc] at h
      injection h with h1 h2
      cases h2

theorem createTables_fixed (salts : List Nat) (st : DbState)
    (h1 : st.dbExists = true) (h2 : st.usersTable = true)
    (h3 : st.postsTable = true) (h4 : st.users ≠ []) (h5 : st.posts ≠ []) :
    createTables salts st = (st, none) := by
  obtain ⟨d, ut, pt, us, ps⟩ := st
  simp only at h1 h2 h3 h4 h5
  subst h1
  subst h2
  subst h3
  cases us with
  | nil => exact absurd rfl h4
  | cons u us2 =>
    cases ps with
    | nil => exact absurd rfl h5
    | cons p ps2 => rfl

theorem list_isEmpty_true_eq {α : Type} (l : List α) (h : l.isEmpty = true) :
    l = [] := by
  cases l with
  | nil => rfl
  | cons a t => simp [List.isEmpty] at h

theorem list_isEmpty_false_ne {α : Type} (l : List α) (h : l.isEmpty = false) :
    l ≠ [] := by
  intro hnil
  rw [hnil] at h
  simp [List.isEmpty] at h

theorem createTables_reduce (salts : List Nat) (d ut pt : Bool)
    (us : List UserRow) (ps : List PostRow) :
    createTables salts ⟨d, ut, pt, us, ps⟩ =
      (if (if pt then ps else []).isEmpty then
        insertSeedPosts mockPosts
          ⟨true, true, true,
           (if (if ut then us else []).isEmpty then seededUsers salts
            else if ut then us else []),
           (if pt then ps else [])⟩
      else
        (⟨true, true, true,
          (if (if ut then us else []).isEmpty then seededUsers salts
           else if ut then us else []),
          (if pt then ps else [])⟩, none)) := by
  cases ut with
  | false =>
    cases pt with
    | false => rfl
    | true =>
      cases ps with
      | nil => rfl
      | cons p tl => rfl
  | true =>
    cases us with
    | nil =>
      cases pt with
      | false => rfl
      | true =>
        cases ps with
        | nil => rfl
        | cons p tl => rfl
    | cons u utl =>
      cases pt with
      | false =>
        show (match insertSeedPosts mockPosts ⟨true, true, true, u :: utl, []⟩ with
          | (st2, none) => (st2, (none : Option String))
          | (st2, some e) => (st2, some e)) =
          insertSeedPosts mockPosts ⟨true, true, true, u :: utl, []⟩
        rcases insertSeedPosts mockPosts ⟨true, true, true, u :: utl, []⟩ with ⟨s5, e⟩
        cases e <;> rfl
      | true =>
        cases ps with
        | cons p tl => rfl
        | nil =>
          show (match insertSeedPosts mockPosts ⟨true, true, true, u :: utl, []⟩ with
            | (st2, none) => (st2, (none : Option String))
            | (st2, some e) => (st2, some e)) =
            insertSeedPosts mockPosts ⟨true, true, true, u :: utl, []⟩
          rcases insertSeedPosts mockPosts ⟨true, true, true, u :: utl, []⟩ with ⟨s5, e⟩
          cases e <;> rfl

theorem createTables_good (salts : List Nat) (st st1 : DbState)
    (h : createTables salts st = (st1, none)) :
    st1.dbExists = true ∧ st1.usersTable = true ∧ st1.postsTable = true ∧
    st1.users ≠ [] ∧ st1.posts ≠ [] := by
  obtain ⟨d, ut, pt, us, ps⟩ := st
  rw [createTables_reduce] at h
  have husers : (if (if ut then us else []).isEmpty then seededUsers salts
      else if ut then us else []) ≠ [] := by
    by_cases hue : (if ut then us else []).isEmpty = true
    · rw [if_pos hue]
      simp [seededUsers, mockUsers]
    · rw [if_neg hue]
      exact list_isEmpty_false_ne _ (Bool.eq_false_iff.mpr hue)
  by_cases hpe : (if pt then ps else []).isEmpty = true
  · rw [if_pos hpe] at h
    obtain ⟨e1, e2, e3, e4, e5⟩ := insertSeedPosts_ok mockPosts _ st1 h
    refine ⟨by rw [e1], by rw [e2], by rw [e3], by rw [e4]; exact husers, ?_⟩
    have hl0 : (if pt then ps else []).length = 0 := by
      rw [list_isEmpty_true_eq _ hpe]
      rfl
    intro hnil
    rw [hnil] at e5
    simp only [List.length_nil, hl0, mockPosts] at e5
    simp at e5
  · rw [if_neg hpe] at h
    injection h with h1 h2
    rw [← h1]
    exact ⟨rfl, rfl, rfl, husers,
      list_isEmpty_false_ne _ (Bool.eq_false_iff.mpr hpe)⟩

/-- The rows the post seeding loop appends when it starts from a posts list
of length n: seed posts in order, ids counting up from n + 1. -/
def buildSeedRows (n : Nat) : List SeedPost → List PostRow
  | [] => []
  | p :: rest => ⟨n + 1, p.title, p.content, p.user_id⟩ :: buildSeedRows (n + 1) rest

theorem insertSeedPosts_eval (ps : List SeedPost) :
    ∀ (st : DbState),
      (∀ p ∈ ps, st.users.any (fun u => u.id == p.user_id) = true) →
      insertSeedPosts ps st =
        ({ st with posts := st.posts ++ buildSeedRows st.posts.length ps }, none) := by
  induction ps with
  | nil =>
    intro st h
    simp [insertSeedPosts, buildSeedRows]
  | cons p rest ih =>
    intro st h
    simp only [insertSeedPosts]
    rw [if_pos (h p (by simp))]
    rw [ih _ ?cond]
    case cond =>
      intro q hq
      simpa using h q (by simp [hq])
    congr 1
    simp [buildSeedRows, List.append_assoc]

theorem buildSeedRows_mock : buildSeedRows 0 mockPosts = seededPosts := rfl

/-- C7: running the bootstrap initializer twice in succession produces no
duplicate seed rows and leaves the schema unchanged: a second run on the
store a successful run produced returns that store unchanged with no
error. Account seeding and post seeding are gated independently on the
emptiness of their own table: a store whose tables exist with non-empty
accounts (containing the seed owner ids) but empty posts gets exactly the
seed posts inserted and its accounts untouched. -/
theorem bootstrap_idempotent_and_gated (salts : List Nat) (st st1 : DbState) :
    (createTables salts st = (st1, none) → createTables salts st1 = (st1, none)) ∧
    (st.usersTable = true → st.postsTable = true → st.users ≠ [] →
      st.posts = [] →
      st.users.any (fun u => u.id == 1) = true →
      st.users.any (fun u => u.id == 2) = true →
      (createTables salts st).1.users = st.users ∧
      (createTables salts st).1.posts = seededPosts ∧
      (createTables salts st).2 = none) := by
  constructor
  · intro h
    obtain ⟨g1, g2, g3, g4, g5⟩ := createTables_good salts st st1 h
    exact createTables_fixed salts st1 g1 g2 g3 g4 g5
  · intro hut hpt hus hps hany1 hany2
    obtain ⟨d, ut, pt, us, ps⟩ := st
    simp only at hut hpt hus hps hany1 hany2
    subst hut
    subst hpt
    subst hps
    rw [createTables_reduce]
    have hcond : ∀ p ∈ mockPosts,
        (⟨true, true, true, us, []⟩ : DbState).users.any
          (fun u => u.id == p.user_id) = true := by
      intro p hp
      simp only [mockPosts, List.mem_cons, List.mem_singleton] at hp
      rcases hp with rfl | rfl | rfl | rfl | rfl | h0
      · exact hany1
      · exact hany1
      · exact hany2
      · exact hany2
      · exact hany1
      · simp at h0
    cases us with
    | nil => exact absurd rfl hus
    | cons u utl =>
      have hue : ((u :: utl).isEmpty : Bool) = false := rfl
      simp only [if_true, hue, Bool.false_eq_true, if_false, List.isEmpty_nil]
      rw [insertSeedPosts_eval mockPosts ⟨true, true, true, u :: utl, []⟩ hcond]
      refine ⟨rfl, ?_, rfl⟩
      simp [buildSeedRows_mock]

/-- Witness for C7: a store with the two seed accounts and no posts gets
exactly the seed posts and keeps its accounts; the state a successful run
produces is a fixed point of a second run. -/
theorem bootstrap_idempotent_and_gated_witness :
    createTables [0, 0]
        ⟨true, true, true,
         [⟨1, "johndoe", "john@example.com", PwStored.hash 10 0 "password123"⟩,
          ⟨2, "janedoe", "jane@example.com", PwStored.hash 10 0 "password456"⟩],
         []⟩ =
      (⟨true, true, true,
        [⟨1, "johndoe", "john@example.com", PwStored.hash 10 0 "password123"⟩,
         ⟨2, "janedoe", "jane@example.com", PwStored.hash 10 0 "password456"⟩],
        seededPosts⟩, none) ∧
    createTables [0, 0]
        ⟨true, true, true,
         [⟨1, "johndoe", "john@example.com", PwStored.hash 10 0 "password123"⟩,
          ⟨2, "janedoe", "jane@example.com", PwStored.hash 10 0 "password456"⟩],
         seededPosts⟩ =
      (⟨true, true, true,
        [⟨1, "johndoe", "john@example.com", PwStored.hash 10 0 "password123"⟩,
         ⟨2, "janedoe", "jane@example.com", PwStored.hash 10 0 "password456"⟩],
        seededPosts⟩, none) ∧
    (createTables [0, 0]
        ⟨true, true, true,
         [⟨1, "johndoe", "john@example.com", PwStored.hash 10 0 "password123"⟩,
          ⟨2, "janedoe", "jane@example.com", PwStored.hash 10 0 "password456"⟩],
         []⟩).1.users =
      [⟨1, "johndoe", "john@example.com", PwStored.hash 10 0 "password123"⟩,
       ⟨2, "janedoe", "jane@example.com", PwStored.hash 10 0 "password456"⟩] := by
  have h := bootstrap_idempotent_and_gated [0, 0]
    ⟨true, true, true,
     [⟨1, "johndoe", "john@example.com", PwStored.hash 10 0 "password123"⟩,
      ⟨2, "janedoe", "jane@example.com", PwStored.hash 10 0 "password456"⟩],
     []⟩
    ⟨true, true, true,
     [⟨1, "johndoe", "john@example.com", PwStored.hash 10 0 "password123"⟩,
      ⟨2, "janedoe", "jane@example.com", PwStored.hash 10 0 "password456"⟩],
     seededPosts⟩
  refine ⟨rfl, h.1 rfl, ?_⟩
  exact (h.2 rfl rfl (by simp) rfl rfl rfl).1

/-- C8: if any step of the bootstrap sequence fails, the steps after it are
not executed (the store state is exactly the fold of the steps before the
failing one) and the error propagates to the caller as the result of the
run, while the finally clause closes the storage connection on the success
path and on every failure path alike; an error-free run returns the final
store state. -/
theorem bootstrap_abort_and_close (salts : List Nat) (st : DbState) :
    (∀ failAt : Option Nat, (createTablesRun failAt salts st).2.2 = true) ∧
    (∀ i : Nat, i < 5 →
      (createTablesRun (some i) salts st).1 = Except.error "injected failure" ∧
      (createTablesRun (some i) salts st).2.1 =
        (runSteps none 0 ((bootstrapSteps salts).take i) st).1) ∧
    (∀ st2 : DbState, runSteps none 0 (bootstrapSteps salts) st = (st2, none) →
      createTablesRun none salts st = (Except.ok st2, st2, true)) := by
  refine ⟨?_, ?_, ?_⟩
  · intro failAt
    rcases hq : runSteps failAt 0 (bootstrapSteps salts) st with ⟨s2, e⟩
    cases e <;> simp [createTablesRun, hq]
  · intro i hi
    match i, hi with
    | 0, _ => exact ⟨rfl, rfl⟩
    | 1, _ => exact ⟨rfl, rfl⟩
    | 2, _ => exact ⟨rfl, rfl⟩
    | 3, _ => exact ⟨rfl, rfl⟩
    | 4, _ => exact ⟨rfl, rfl⟩
  · intro st2 h
    simp [createTablesRun, h]

/-- Witness for C8: injecting a failure before step 2 on an empty store
leaves only the first two steps applied, surfaces the error, and still
closes the connection; the fault-free run succeeds with the fully seeded
store and also closes the connection. -/
theorem bootstrap_abort_and_close_witness :
    (createTablesRun (some 2) [0, 0] ⟨false, false, false, [], []⟩).1 =
      Except.error "injected failure" ∧
    (createTablesRun (some 2) [0, 0] ⟨false, false, false, [], []⟩).2.1 =
      (runSteps none 0 ((bootstrapSteps [0, 0]).take 2) ⟨false, false, false, [], []⟩).1 ∧
    (createTablesRun (some 2) [0, 0] ⟨false, false, false, [], []⟩).2.2 = true ∧
    createTablesRun none [0, 0] ⟨false, false, false, [], []⟩ =
      (Except.ok ⟨true, true, true, seededUsers [0, 0], seededPosts⟩,
       ⟨true, true, true, seededUsers [0, 0], seededPosts⟩, true) := by
  have h := bootstrap_abort_and_close [0, 0] ⟨false, false, false, [], []⟩
  exact ⟨(h.2.1 2 (by omega)).1, (h.2.1 2 (by omega)).2, h.1 (some 2),
    h.2.2 ⟨true, true, true, seededUsers [0, 0], seededPosts⟩ rfl⟩
